import Mathlib

/-!
Verification of the ControlPanel4GravityReduce renderer against its
natural-language specification.

The development shallowly embeds the renderer modules of the repository:
the frame codec documented in the README (`Int2Byte` conversion), the
command-button and power-switch managers (`power-switches.js`), the
connection manager (`connection-manager.js`) and the settings manager
(`settings-manager.js`).  Machine integers are `Nat` with explicit bounds,
DOM/stateManager state is an explicit record, and fallible operations
return `Except`.  Parts of the repository that are documented but whose
code is not among the given source files (the inbound frame parser and the
status-echo dispatch living in `main.js` / `data-handler.js`) are modelled
from the specification and marked as such in their doc comments.
-/

namespace ControlPanel

/-! ## Frame codec

The `Int2Byte` conversion is given as literal code in the repository README
(`src/unnamed/part_000`, lines 145-150):
`bytes[0] = (0xff00 & i) >> 8;  bytes[1] = 0xff & i;`
and 16 integers are sent as 32 bytes, big-endian. -/

/-- One 16-bit value to two bytes, exactly as the README code writes it:
high byte `(0xff00 & i) >> 8` first, then low byte `0xff & i`. -/
def int2byte (i : Nat) : List Nat :=
  [(0xff00 &&& i) >>> 8, 0xff &&& i]

/-- Outbound encode: the 16 parameter values converted by `int2byte` and
concatenated in slot order, with no padding, prefix or checksum. -/
def encodeParams (vs : List Nat) : List Nat :=
  (vs.map int2byte).flatten

/-- Big-endian reverse decode: read consecutive byte pairs as `hi * 256 + lo`. -/
def decodeBE : List Nat → List Nat
  | hi :: lo :: rest => (hi * 256 + lo) :: decodeBE rest
  | _ => []

theorem land_ff (v : Nat) : 0xff &&& v = v % 256 := by
  rw [Nat.and_comm]
  have h : (0xff : Nat) = 2 ^ 8 - 1 := by norm_num
  rw [h, Nat.and_pow_two_sub_one_eq_mod]

theorem testBit_ff00 (k : Nat) :
    Nat.testBit 0xff00 k = (decide (8 ≤ k) && decide (k < 16)) := by
  have h : (0xff00 : Nat) = (2 ^ 8 - 1) <<< 8 := by norm_num [Nat.shiftLeft_eq]
  rw [h, Nat.testBit_shiftLeft, Nat.testBit_two_pow_sub_one]
  rcases Nat.lt_or_ge k 8 with hk | hk
  · have e1 : decide (k ≥ 8) = false := by simp; omega
    rw [e1, Bool.false_and, Bool.false_and]
  · have e1 : decide (k ≥ 8) = true := by simp [hk]
    have e3 : decide (k - 8 < 8) = decide (k < 16) := by
      simp only [decide_eq_decide]; omega
    rw [e1, e3, Bool.true_and]

theorem land_ff00_shift (v : Nat) : (0xff00 &&& v) >>> 8 = (v >>> 8) % 256 := by
  apply Nat.eq_of_testBit_eq
  intro i
  rw [Nat.testBit_shiftRight, Nat.testBit_and]
  have h2 : (256 : Nat) = 2 ^ 8 := by norm_num
  rw [h2, Nat.testBit_mod_two_pow, Nat.testBit_shiftRight, testBit_ff00]
  have e1 : decide (8 ≤ 8 + i) = true := by simp
  have e2 : decide (8 + i < 16) = decide (i < 8) := by
    simp only [decide_eq_decide]; omega
  rw [e1, e2, Bool.true_and]

theorem int2byte_fst (v : Nat) (hv : v < 65536) :
    (0xff00 &&& v) >>> 8 = v >>> 8 := by
  rw [land_ff00_shift, Nat.shiftRight_eq_div_pow]
  have hd : v / 2 ^ 8 < 256 := by norm_num; omega
  exact Nat.mod_eq_of_lt hd

theorem int2byte_decode (v : Nat) (hv : v < 65536) :
    ((0xff00 &&& v) >>> 8) * 256 + (0xff &&& v) = v := by
  rw [land_ff, land_ff00_shift, Nat.shiftRight_eq_div_pow]
  have h8 : (2 : Nat) ^ 8 = 256 := by norm_num
  rw [h8]
  omega

theorem encodeParams_cons (v : Nat) (vs : List Nat) :
    encodeParams (v :: vs) = ((0xff00 &&& v) >>> 8) :: (0xff &&& v) :: encodeParams vs := by
  simp [encodeParams, int2byte]

theorem encodeParams_length (vs : List Nat) :
    (encodeParams vs).length = 2 * vs.length := by
  induction vs with
  | nil => rfl
  | cons v vs ih =>
    rw [encodeParams_cons]
    simp only [List.length_cons, ih, List.length_cons]
    omega

theorem decodeBE_encodeParams (vs : List Nat) (hv : ∀ v ∈ vs, v < 65536) :
    decodeBE (encodeParams vs) = vs := by
  induction vs with
  | nil => rfl
  | cons v vs ih =>
    have hvv : v < 65536 := hv v (List.mem_cons_self v vs)
    have hrest : ∀ w ∈ vs, w < 65536 := fun w hw => hv w (List.mem_cons_of_mem v hw)
    rw [encodeParams_cons]
    simp only [decodeBE]
    rw [int2byte_decode v hvv, ih hrest]

/-! ## Inbound decode -/

/-- Error raised on a wrong-length inbound buffer. -/
structure MalformedFrame where
  foundLength : Nat
deriving DecidableEq

/-- One decoded inbound frame: 40 boolean flags plus 10 unsigned 16-bit
integers, the one at index 9 being the controller's command echo. -/
structure StatusSnapshot where
  bools : List Bool
  ints : List Nat
deriving DecidableEq

/-- Modelled from the spec: the inbound decode (`parseReceivedData` in
`main.js`, which is not among the given source files).  Per spec section 4.1
and the README data protocol: bytes 0-4 hold 40 flags, 8 per byte, least
significant bit first; byte 5 is a filler byte, ignored; bytes 6-25 hold 10
big-endian 16-bit integers.  A buffer whose length is not exactly 26 fails
with `MalformedFrame` and no partial snapshot is produced. -/
def decodeStatus (buf : List Nat) : Except MalformedFrame StatusSnapshot :=
  if buf.length = 26 then
    Except.ok
      { bools := (List.range 40).map fun k => (buf.getD (k / 8) 0).testBit (k % 8)
        ints := (List.range 10).map fun j =>
          (buf.getD (6 + 2 * j) 0) * 256 + buf.getD (7 + 2 * j) 0 }
  else
    Except.error ⟨buf.length⟩

/-! ## Connection manager (`connection-manager.js`) -/

/-- Result object returned by the IPC connect calls and by
`ConnectionManager.connect`: `{ success, message }`. -/
structure ConnResult where
  success : Bool
  message : String
deriving DecidableEq

/-- Events emitted on the renderer event bus by `ConnectionManager.connect`:
`Events.CONNECTION_STATUS` and `Events.CONNECTION_ERROR`. -/
inductive ConnEvent
  | connectionStatus (connected : Bool)
  | connectionError (msg : String)
deriving DecidableEq

/-- Transport protocol selected in the state manager (`currentProtocol`). -/
inductive Protocol
  | tcp
  | udp
deriving DecidableEq

/-- TCP settings as destructured by `ConnectionManager.connectTCP`:
`host`, `port`, `clientPort`.  A missing host is the empty string and a
missing or zero port is `0` (both are falsy in the source). -/
structure TCPSettings where
  host : String
  port : Nat
  clientPort : Nat

/-- UDP settings as destructured by `ConnectionManager.connectUDP`:
`listeningPort`, `targetHost`, `targetPort`. -/
structure UDPSettings where
  listeningPort : Nat
  targetHost : String
  targetPort : Nat

/-- `ConnectionManager.connectTCP` (lines 66-83): throws
`Invalid TCP host or port` when host or port is falsy, otherwise returns
whatever `electronAPI.tcpConnect` returns (modelled by the `api` argument;
a thrown error from the IPC call is an `Except.error`). -/
def connectTCP (api : Except String ConnResult) (settings : TCPSettings) :
    Except String ConnResult :=
  if settings.host = "" ∨ settings.port = 0 then
    Except.error "Invalid TCP host or port"
  else
    api

/-- `ConnectionManager.connectUDP` (lines 90-106): throws
`Invalid UDP settings` when the listening port, target host or target port
is falsy, otherwise returns whatever `electronAPI.udpConnect` returns. -/
def connectUDP (api : Except String ConnResult) (settings : UDPSettings) :
    Except String ConnResult :=
  if settings.listeningPort = 0 ∨ settings.targetHost = "" ∨ settings.targetPort = 0 then
    Except.error "Invalid UDP settings"
  else
    api

/-- `ConnectionManager.connect` (lines 33-59): dispatches on the current
protocol, and catches every thrown error.  On a successful result it emits
`CONNECTION_STATUS {connected: true}`; on a failed result it emits
`CONNECTION_ERROR` with the result message; on a caught error it returns
`{ success: false, message }` (with `Unknown error` for an empty message)
and emits `CONNECTION_ERROR`.  The function is total: it always returns a
result object and a list of emitted events, never an exception. -/
def connect (protocol : Protocol) (tcpApi udpApi : Except String ConnResult)
    (tcp : TCPSettings) (udp : UDPSettings) : ConnResult × List ConnEvent :=
  match (match protocol with
         | Protocol.tcp => connectTCP tcpApi tcp
         | Protocol.udp => connectUDP udpApi udp) with
  | Except.ok r =>
      if r.success then
        (r, [ConnEvent.connectionStatus true])
      else
        (r, [ConnEvent.connectionError r.message])
  | Except.error msg =>
      let m := if msg = "" then "Unknown error" else msg
      ({ success := false, message := m }, [ConnEvent.connectionError m])

/-! ## Settings manager (`settings-manager.js`), parameter-slot persistence -/

/-- The browser `localStorage`, a partial map from string keys to strings. -/
def Storage : Type := String → Option String

/-- `localStorage.setItem`. -/
def setItem (st : Storage) (key value : String) : Storage :=
  fun k => if k = key then some value else st k

/-- The `localStorage` key used for parameter slot `i`. -/
def intKey (i : Nat) : String := "int-" ++ toString i

/-- The parameter-slot loop of `SettingsManager.saveSettings` (lines
175-180): for `i` in `0..n-1` ascending, if the `int-i` input element
exists and `i !== 9`, write its value under the key `int-i`.  The `inputs`
argument gives each input element's value, `none` when the element does not
exist. -/
def saveIntSlots (inputs : Nat → Option String) : Nat → Storage → Storage
  | 0, st => st
  | n + 1, st =>
      match inputs n with
      | some v =>
          if n ≠ 9 then setItem (saveIntSlots inputs n st) (intKey n) v
          else saveIntSlots inputs n st
      | none => saveIntSlots inputs n st

/-- The parameter-slot loop of `SettingsManager.loadSettings` (lines 85-94):
for `i` in `0..n-1` ascending, if the `int-i` input element exists and
`i !== 9` and a saved value is present in storage, set the input's value to
the saved value. -/
def loadIntSlots (st : Storage) : Nat → (Nat → Option String) → (Nat → Option String)
  | 0, inputs => inputs
  | n + 1, inputs =>
      match loadIntSlots st n inputs n with
      | some _ =>
          if n ≠ 9 then
            match st (intKey n) with
            | some v => fun j => if j = n then some v else loadIntSlots st n inputs j
            | none => loadIntSlots st n inputs
          else loadIntSlots st n inputs
      | none => loadIntSlots st n inputs

/-! ## Command buttons and power switches (`power-switches.js`)

The DOM and `stateManager` state touched by `CommandButtonsManager` and
`PowerSwitchesManager`: the `currentCommand` and `waitingForAcknowledgment`
state entries, the `int-9` input mirror, the `disabled` attribute and
`active-command` class of each command button (indexed by `Nat`), and the
`disabled`/`checked` attributes of the driver and servo power switches. -/

structure PanelState where
  isConnected : Bool
  currentCommand : Nat
  int9 : Nat
  waitingForAck : Bool
  btnDisabled : Nat → Bool
  btnActive : Nat → Bool
  driverDisabled : Bool
  servoDisabled : Bool
  driverChecked : Bool
  servoChecked : Bool

/-- One of the two power switches. -/
inductive Switch
  | driver
  | servo
deriving DecidableEq

/-- The other power switch. -/
def Switch.other : Switch → Switch
  | Switch.driver => Switch.servo
  | Switch.servo => Switch.driver

/-- The `checked` attribute of a switch. -/
def getChecked (sw : Switch) (s : PanelState) : Bool :=
  match sw with
  | Switch.driver => s.driverChecked
  | Switch.servo => s.servoChecked

/-- Set the `checked` attribute of a switch. -/
def setChecked (sw : Switch) (b : Bool) (s : PanelState) : PanelState :=
  match sw with
  | Switch.driver => { s with driverChecked := b }
  | Switch.servo => { s with servoChecked := b }

/-- The `disabled` attribute of a switch. -/
def getSwitchDisabled (sw : Switch) (s : PanelState) : Bool :=
  match sw with
  | Switch.driver => s.driverDisabled
  | Switch.servo => s.servoDisabled

/-- Set the `disabled` attribute of a switch. -/
def setSwitchDisabled (sw : Switch) (b : Bool) (s : PanelState) : PanelState :=
  match sw with
  | Switch.driver => { s with driverDisabled := b }
  | Switch.servo => { s with servoDisabled := b }

/-- `CommandButtonsManager.setCommand` (lines 354-366): store the command id
in `stateManager`'s `currentCommand` and mirror it in the `int-9` input. -/
def setCommand (id : Nat) (s : PanelState) : PanelState :=
  { s with currentCommand := id, int9 := id }

/-- `CommandButtonsManager.clearCommand` (lines 371-373). -/
def clearCommand (s : PanelState) : PanelState :=
  setCommand 0 s

/-- `CommandButtonsManager.setActiveButton`: remove `active-command` from
every button, add it to the clicked one. -/
def setActiveButton (b : Nat) (s : PanelState) : PanelState :=
  { s with btnActive := fun j => if j = b then true else false }

/-- `CommandButtonsManager.disableAllButtonsExcept`: disable every button
other than the given one (the given one keeps its previous state). -/
def disableAllButtonsExcept (b : Nat) (s : PanelState) : PanelState :=
  { s with btnDisabled := fun j => if j = b then s.btnDisabled j else true }

/-- `CommandButtonsManager.enableAllButtons`. -/
def enableAllButtons (s : PanelState) : PanelState :=
  { s with btnDisabled := fun _ => false }

/-- `CommandButtonsManager.disableAllButtons`, and also
`PowerSwitchesManager.disableCommandButtons` (both disable every
`.btn-command`). -/
def disableAllButtons (s : PanelState) : PanelState :=
  { s with btnDisabled := fun _ => true }

/-- `CommandButtonsManager.clearActiveButtons`. -/
def clearActiveButtons (s : PanelState) : PanelState :=
  { s with btnActive := fun _ => false }

/-- `setWaitingForAcknowledgment` (identical in both managers). -/
def setWaitingForAck (w : Bool) (s : PanelState) : PanelState :=
  { s with waitingForAck := w }

/-- `PowerSwitchesManager.disableAll` (lines 151-160). -/
def psDisableAll (s : PanelState) : PanelState :=
  { s with driverDisabled := true, servoDisabled := true }

/-- `PowerSwitchesManager.enableAll` (lines 165-182): re-enables each switch
only when `isConnected` is true. -/
def psEnableAll (s : PanelState) : PanelState :=
  if s.isConnected then { s with driverDisabled := false, servoDisabled := false } else s

/-- `PowerSwitchesManager.handleConnectionStatus` (lines 188-194). -/
def handleConnectionStatus (connected : Bool) (s : PanelState) : PanelState :=
  if connected then psEnableAll s else psDisableAll s

/-- `stateManager.set('isConnected', c)` as performed by
`ConnectionManager.handleConnectionStatusUpdate` before the status event
reaches the power switches. -/
def setConnected (c : Bool) (s : PanelState) : PanelState :=
  { s with isConnected := c }

/-- `CommandButtonsManager.handleCommandClick` (lines 253-277): no-op when
not connected; otherwise set the clicked button active, disable every other
button, disable the power switches (via the `power-switches:disable` event),
set the waiting flag and write the button's `data-cmd` id (given by `cmdOf`)
into the command register. -/
def handleCommandClick (cmdOf : Nat → Nat) (b : Nat) (s : PanelState) : PanelState :=
  if s.isConnected then
    setCommand (cmdOf b)
      (setWaitingForAck true
        (psDisableAll
          (disableAllButtonsExcept b
            (setActiveButton b s))))
  else
    s

/-- `PowerSwitchesManager.handleSwitchChange` (lines 70-106), run after the
DOM has already flipped the switch's `checked` attribute: when not connected
it reverts the flip and returns; otherwise it reads the new checked state,
picks the on/off command id (`data-cmd-on` / `data-cmd-off`, given by
`cmdOn`/`cmdOff`), disables all command buttons, disables the other switch,
sets the waiting flag and writes the command id. -/
def handleSwitchChange (cmdOn cmdOff : Switch → Nat) (sw : Switch) (s : PanelState) :
    PanelState :=
  if s.isConnected then
    let isOn := getChecked sw s
    let commandId := if isOn then cmdOn sw else cmdOff sw
    setCommand commandId
      (setWaitingForAck true
        (setSwitchDisabled sw.other true
          (disableAllButtons s)))
  else
    setChecked sw (!(getChecked sw s)) s

/-- One operator toggle of a power switch: the DOM flips `checked`, then the
`change` handler runs. -/
def toggleSwitch (cmdOn cmdOff : Switch → Nat) (sw : Switch) (s : PanelState) :
    PanelState :=
  handleSwitchChange cmdOn cmdOff sw (setChecked sw (!(getChecked sw s)) s)

/-- `CommandButtonsManager.handleAcknowledgment` (lines 379-396): clear the
active state of every button, re-enable all buttons, re-enable the power
switches (via `power-switches:enable`, which checks `isConnected`), clear
the waiting flag and reset the command register to 0. -/
def handleAcknowledgment (s : PanelState) : PanelState :=
  clearCommand
    (setWaitingForAck false
      (psEnableAll
        (enableAllButtons
          (clearActiveButtons s))))

/-- Sticky-command configuration.  Per the spec (design notes), which
commands are sticky and which controls are safe to use concurrently with an
active sticky command are configuration supplied by the UI wiring; they are
parameters here. -/
structure StickyConfig where
  sticky : Nat → Bool
  safeBtn : Nat → Bool
  safeDriver : Bool
  safeServo : Bool

/-- Modelled from the spec: the resolution of a sticky command (spec section
4.5), whose code lives in the data handler that is not among the given
source files.  The command slot and the active state are kept as-is, the
waiting flag is cleared, and only the controls marked safe for concurrent
use are re-enabled. -/
def resolveSticky (cfg : StickyConfig) (s : PanelState) : PanelState :=
  { s with
    waitingForAck := false
    btnDisabled := fun j => if cfg.safeBtn j then false else s.btnDisabled j
    driverDisabled := if cfg.safeDriver then false else s.driverDisabled
    servoDisabled := if cfg.safeServo then false else s.servoDisabled }

/-- Modelled from the spec: the status-echo dispatch (spec section 4.5),
whose code lives in the data handler / `main.js`, not among the given
source files.  On each new status snapshot the echoed integer is compared
with the currently pending command id; a match resolves the request —
through `handleAcknowledgment` for one-shot commands, through
`resolveSticky` for sticky ones — and a mismatch (or no pending command)
produces no transition. -/
def handleStatusEcho (cfg : StickyConfig) (echo : Nat) (s : PanelState) : PanelState :=
  if s.waitingForAck = true ∧ echo = s.currentCommand then
    if cfg.sticky s.currentCommand then resolveSticky cfg s else handleAcknowledgment s
  else
    s

/-! ## Power-switch reachability (for the disconnected-implies-disabled
invariant) -/

/-- One transition of the power-switch subsystem: an `enableAll` or
`disableAll` request from the event bus, or a connection-status event
(`ConnectionManager.handleConnectionStatusUpdate` sets `isConnected` and the
status event reaches `PowerSwitchesManager.handleConnectionStatus`). -/
inductive PSStep : PanelState → PanelState → Prop
  | enableAll (s : PanelState) : PSStep s (psEnableAll s)
  | disableAll (s : PanelState) : PSStep s (psDisableAll s)
  | connStatus (c : Bool) (s : PanelState) :
      PSStep s (handleConnectionStatus c (setConnected c s))

/-- Reachability through the power-switch operations. -/
def PSReachable : PanelState → PanelState → Prop :=
  Relation.ReflTransGen PSStep

/-- The invariant: while disconnected, both power switches are disabled. -/
def SwitchesSafe (s : PanelState) : Prop :=
  s.isConnected = false → s.driverDisabled = true ∧ s.servoDisabled = true

instance (s : PanelState) : Decidable (SwitchesSafe s) := by
  unfold SwitchesSafe
  infer_instance

/-! ## Claim theorems -/

/-- C2: for every ParameterVector of 16 values each in [0,65535], encoding
writes each value as exactly 2 bytes, high byte (`value >> 8`) first then
low byte (`value % 256`, the value masked with `0xff`), in slot order with
no padding, producing exactly 32 bytes, and a big-endian reverse decode of
the encoded buffer recovers the 16 original values exactly. -/
theorem encode_bigendian_roundtrip (vs : List Nat)
    (h16 : vs.length = 16) (hv : ∀ v ∈ vs, v < 65536) :
    (encodeParams vs).length = 32 ∧
    (∀ v ∈ vs, int2byte v = [v >>> 8, v % 256] ∧ (int2byte v).length = 2) ∧
    decodeBE (encodeParams vs) = vs := by
  refine ⟨?_, ?_, decodeBE_encodeParams vs hv⟩
  · rw [encodeParams_length, h16]
  · intro v hvm
    have hb : v < 65536 := hv v hvm
    refine ⟨?_, rfl⟩
    unfold int2byte
    rw [int2byte_fst v hb, land_ff]

theorem encode_bigendian_roundtrip_witness :
    ([0, 1, 258, 65535, 5, 6, 7, 8, 9, 10, 11, 12, 13, 14, 15, 400] : List Nat).length = 16 ∧
    (encodeParams [0, 1, 258, 65535, 5, 6, 7, 8, 9, 10, 11, 12, 13, 14, 15, 400]).length = 32 ∧
    decodeBE (encodeParams [0, 1, 258, 65535, 5, 6, 7, 8, 9, 10, 11, 12, 13, 14, 15, 400]) =
      [0, 1, 258, 65535, 5, 6, 7, 8, 9, 10, 11, 12, 13, 14, 15, 400] :=
  ⟨by decide,
   (encode_bigendian_roundtrip _ (by decide) (by decide)).1,
   (encode_bigendian_roundtrip _ (by decide) (by decide)).2.2⟩

/-- C6: inbound decode succeeds with a full StatusSnapshot (40 booleans and
10 unsigned 16-bit integers) if and only if the buffer length is exactly 26
bytes; for any other length it fails with a MalformedFrame error carrying
the offending length, and no partial snapshot is produced. -/
theorem decode_ok_iff_length26 (buf : List Nat) :
    ((∃ snap, decodeStatus buf = Except.ok snap ∧
        snap.bools.length = 40 ∧ snap.ints.length = 10) ↔ buf.length = 26) ∧
    (buf.length ≠ 26 → decodeStatus buf = Except.error ⟨buf.length⟩) := by
  constructor
  · constructor
    · rintro ⟨snap, hok, -, -⟩
      by_contra h
      simp [decodeStatus, h] at hok
    · intro h
      refine ⟨{ bools := (List.range 40).map fun k => (buf.getD (k / 8) 0).testBit (k % 8)
                ints := (List.range 10).map fun j =>
                  (buf.getD (6 + 2 * j) 0) * 256 + buf.getD (7 + 2 * j) 0 },
              ?_, ?_, ?_⟩
      · simp [decodeStatus, h]
      · simp
      · simp
  · intro h
    simp [decodeStatus, h]

theorem decode_ok_iff_length26_witness :
    (List.replicate 25 0).length ≠ 26 ∧
    decodeStatus (List.replicate 25 0) = Except.error ⟨25⟩ :=
  ⟨by decide, (decode_ok_iff_length26 (List.replicate 25 0)).2 (by decide)⟩

/-- C7: connect never throws: it always returns a result object and a list
of emitted events.  Invalid settings (TCP with falsy host or port; UDP with
falsy listening port, target host or target port) and underlying failures
yield success = false together with a connection-error event carrying the
message, while a successful underlying connect yields success = true and a
connected status event. -/
theorem connect_total_result_events
    (tcpApi udpApi : Except String ConnResult) (tcp : TCPSettings) (udp : UDPSettings) :
    (tcp.host = "" ∨ tcp.port = 0 →
      connect Protocol.tcp tcpApi udpApi tcp udp =
        ({ success := false, message := "Invalid TCP host or port" },
         [ConnEvent.connectionError "Invalid TCP host or port"])) ∧
    (udp.listeningPort = 0 ∨ udp.targetHost = "" ∨ udp.targetPort = 0 →
      connect Protocol.udp tcpApi udpApi tcp udp =
        ({ success := false, message := "Invalid UDP settings" },
         [ConnEvent.connectionError "Invalid UDP settings"])) ∧
    (∀ r, ¬(tcp.host = "" ∨ tcp.port = 0) → tcpApi = Except.ok r → r.success = false →
      connect Protocol.tcp tcpApi udpApi tcp udp =
        (r, [ConnEvent.connectionError r.message])) ∧
    (∀ msg, ¬(tcp.host = "" ∨ tcp.port = 0) → tcpApi = Except.error msg → msg ≠ "" →
      connect Protocol.tcp tcpApi udpApi tcp udp =
        ({ success := false, message := msg }, [ConnEvent.connectionError msg])) ∧
    (∀ r, ¬(tcp.host = "" ∨ tcp.port = 0) → tcpApi = Except.ok r → r.success = true →
      connect Protocol.tcp tcpApi udpApi tcp udp =
        (r, [ConnEvent.connectionStatus true])) ∧
    (∀ r, ¬(udp.listeningPort = 0 ∨ udp.targetHost = "" ∨ udp.targetPort = 0) →
      udpApi = Except.ok r → r.success = true →
      connect Protocol.udp tcpApi udpApi tcp udp =
        (r, [ConnEvent.connectionStatus true])) := by
  refine ⟨?_, ?_, ?_, ?_, ?_, ?_⟩
  · intro h
    simp [connect, connectTCP, h]
  · intro h
    simp [connect, connectUDP, h]
  · intro r h hr hs
    simp [connect, connectTCP, h, hr, hs]
  · intro msg h hm hne
    simp [connect, connectTCP, h, hm, hne]
  · intro r h hr hs
    simp [connect, connectTCP, h, hr, hs]
  · intro r h hr hs
    simp [connect, connectUDP, h, hr, hs]

theorem connect_total_result_events_witness :
    ((("" : String) = "" ∨ (0 : Nat) = 0) ∧
      connect Protocol.tcp (Except.ok ⟨true, "ok"⟩) (Except.ok ⟨true, "ok"⟩)
          ⟨"", 0, 0⟩ ⟨8081, "localhost", 8080⟩ =
        ({ success := false, message := "Invalid TCP host or port" },
         [ConnEvent.connectionError "Invalid TCP host or port"])) ∧
    connect Protocol.tcp (Except.ok ⟨true, "ok"⟩) (Except.ok ⟨true, "ok"⟩)
        ⟨"localhost", 8080, 0⟩ ⟨8081, "localhost", 8080⟩ =
      (⟨true, "ok"⟩, [ConnEvent.connectionStatus true]) :=
  ⟨⟨Or.inl rfl,
    (connect_total_result_events (Except.ok ⟨true, "ok"⟩) (Except.ok ⟨true, "ok"⟩)
      ⟨"", 0, 0⟩ ⟨8081, "localhost", 8080⟩).1 (Or.inl rfl)⟩,
   (connect_total_result_events (Except.ok ⟨true, "ok"⟩) (Except.ok ⟨true, "ok"⟩)
      ⟨"localhost", 8080, 0⟩ ⟨8081, "localhost", 8080⟩).2.2.2.2.1 ⟨true, "ok"⟩
      (by simp) rfl rfl⟩

theorem intKey_inj16 : ∀ i, i < 16 → ∀ j, j < 16 → intKey i = intKey j → i = j := by
  decide

theorem saveIntSlots_succ_some (inputs : Nat → Option String) (st : Storage)
    (n : Nat) (v : String) (h : inputs n = some v) :
    saveIntSlots inputs (n + 1) st =
      if n ≠ 9 then setItem (saveIntSlots inputs n st) (intKey n) v
      else saveIntSlots inputs n st := by
  conv_lhs => rw [saveIntSlots]
  rw [h]

theorem saveIntSlots_succ_none (inputs : Nat → Option String) (st : Storage)
    (n : Nat) (h : inputs n = none) :
    saveIntSlots inputs (n + 1) st = saveIntSlots inputs n st := by
  conv_lhs => rw [saveIntSlots]
  rw [h]

theorem saveIntSlots_lookup (inputs : Nat → Option String) (st : Storage) :
    ∀ n i, i < n → i ≠ 9 → ∀ v, inputs i = some v →
      (∀ j, j < n → intKey j = intKey i → j = i) →
      saveIntSlots inputs n st (intKey i) = some v := by
  intro n
  induction n with
  | zero => intro i hi; omega
  | succ n ih =>
    intro i hi h9 v hv hinj
    rcases Nat.lt_or_ge i n with hin | hin
    · have hrec := ih i hin h9 v hv (fun j hj => hinj j (Nat.lt_succ_of_lt hj))
      cases hn : inputs n with
      | none => rw [saveIntSlots_succ_none inputs st n hn]; exact hrec
      | some w =>
        rw [saveIntSlots_succ_some inputs st n w hn]
        by_cases h9n : n = 9
        · rw [if_neg (fun hc => hc h9n)]; exact hrec
        · rw [if_pos h9n]
          have hne : ¬(intKey i = intKey n) := by
            intro he
            exact absurd (hinj n (Nat.lt_succ_self n) he.symm) (by omega)
          unfold setItem
          rw [if_neg hne]
          exact hrec
    · have hieq : i = n := by omega
      subst hieq
      rw [saveIntSlots_succ_some inputs st i v hv, if_pos h9]
      unfold setItem
      rw [if_pos rfl]

theorem saveIntSlots_untouched (inputs : Nat → Option String) (st : Storage) :
    ∀ n (k : String), (∀ j, j < n → j ≠ 9 → k ≠ intKey j) →
      saveIntSlots inputs n st k = st k := by
  intro n
  induction n with
  | zero => intro k _; rfl
  | succ n ih =>
    intro k hk
    have hrec := ih k (fun j hj => hk j (Nat.lt_succ_of_lt hj))
    cases hn : inputs n with
    | none => rw [saveIntSlots_succ_none inputs st n hn]; exact hrec
    | some w =>
      rw [saveIntSlots_succ_some inputs st n w hn]
      by_cases h9n : n = 9
      · rw [if_neg (fun hc => hc h9n)]; exact hrec
      · rw [if_pos h9n]
        have hne : k ≠ intKey n := hk n (Nat.lt_succ_self n) h9n
        unfold setItem
        rw [if_neg hne]
        exact hrec

theorem loadIntSlots_succ_apply (st : Storage) (inputs : Nat → Option String)
    (n j : Nat) :
    loadIntSlots st (n + 1) inputs j =
      match loadIntSlots st n inputs n with
      | some _ =>
          if n ≠ 9 then
            match st (intKey n) with
            | some v => if j = n then some v else loadIntSlots st n inputs j
            | none => loadIntSlots st n inputs j
          else loadIntSlots st n inputs j
      | none => loadIntSlots st n inputs j := by
  conv_lhs => rw [loadIntSlots]
  cases loadIntSlots st n inputs n with
  | none => rfl
  | some w =>
    by_cases h9n : n ≠ 9
    · rw [if_pos h9n]
      dsimp only
      rw [if_pos h9n]
      cases st (intKey n) with
      | none => rfl
      | some v => rfl
    · rw [if_neg h9n]
      dsimp only
      rw [if_neg h9n]

theorem loadIntSlots_not_lt (st : Storage) (inputs : Nat → Option String) :
    ∀ n j, (¬ j < n) ∨ j = 9 → loadIntSlots st n inputs j = inputs j := by
  intro n
  induction n with
  | zero => intro j _; rfl
  | succ n ih =>
    intro j hj
    have hrec : loadIntSlots st n inputs j = inputs j := by
      apply ih
      rcases hj with hj | hj
      · exact Or.inl (by omega)
      · exact Or.inr hj
    rw [loadIntSlots_succ_apply]
    cases hn : loadIntSlots st n inputs n with
    | none => exact hrec
    | some w =>
      by_cases h9n : n ≠ 9
      · rw [if_pos h9n]
        cases hs : st (intKey n) with
        | none => exact hrec
        | some v =>
          have hne : ¬(j = n) := by
            intro he
            subst he
            rcases hj with hj | hj
            · omega
            · exact h9n hj
          dsimp only
          rw [if_neg hne]
          exact hrec
      · rw [if_neg h9n]
        exact hrec

theorem loadIntSlots_lookup (st : Storage) (inputs : Nat → Option String) :
    ∀ n i, i < n → i ≠ 9 → ∀ w v, inputs i = some w → st (intKey i) = some v →
      loadIntSlots st n inputs i = some v := by
  intro n
  induction n with
  | zero => intro i hi; omega
  | succ n ih =>
    intro i hi h9 w v hw hv
    rw [loadIntSlots_succ_apply]
    rcases Nat.lt_or_ge i n with hin | hin
    · have hrec := ih i hin h9 w v hw hv
      have hne : ¬(i = n) := by omega
      cases hn : loadIntSlots st n inputs n with
      | none => exact hrec
      | some u =>
        by_cases h9n : n ≠ 9
        · rw [if_pos h9n]
          cases hs : st (intKey n) with
          | none => exact hrec
          | some z => dsimp only; rw [if_neg hne]; exact hrec
        · rw [if_neg h9n]
          exact hrec
    · have hieq : i = n := by omega
      subst hieq
      have hcur : loadIntSlots st i inputs i = some w := by
        rw [loadIntSlots_not_lt st inputs i i (Or.inl (by omega))]
        exact hw
      rw [hcur]
      dsimp only
      rw [if_pos h9, hv]
      dsimp only
      rw [if_pos rfl]

/-- C8: for every slot index i in [0,16), generic parameter persistence
never touches the command-register slot: saveSettings writes slot i to
storage and loadSettings restores it if and only if i ≠ 9; the `int-9` key
is never written by the save loop, and the `int-9` input is never modified
by the load loop. -/
theorem settings_skip_command_slot (inputs : Nat → Option String) (st : Storage)
    (i : Nat) (hi : i < 16) (v w : String) :
    (i ≠ 9 → inputs i = some v → saveIntSlots inputs 16 st (intKey i) = some v) ∧
    saveIntSlots inputs 16 st (intKey 9) = st (intKey 9) ∧
    (i ≠ 9 → inputs i = some w → st (intKey i) = some v →
      loadIntSlots st 16 inputs i = some v) ∧
    loadIntSlots st 16 inputs 9 = inputs 9 := by
  refine ⟨?_, ?_, ?_, loadIntSlots_not_lt st inputs 16 9 (Or.inr rfl)⟩
  · intro h9 hv
    exact saveIntSlots_lookup inputs st 16 i hi h9 v hv
      (fun j hj he => intKey_inj16 j hj i hi he)
  · exact saveIntSlots_untouched inputs st 16 (intKey 9)
      (fun j hj hj9 he => hj9 (intKey_inj16 9 (by omega) j hj he).symm)
  · intro h9 hw hv
    exact loadIntSlots_lookup st inputs 16 i hi h9 w v hw hv

theorem settings_skip_command_slot_witness :
    ((3 : Nat) < 16 ∧ (3 : Nat) ≠ 9) ∧
    saveIntSlots (fun i => some (toString i)) 16 (fun _ => none) (intKey 3) = some "3" ∧
    saveIntSlots (fun i => some (toString i)) 16 (fun _ => none) (intKey 9) = none ∧
    loadIntSlots (fun _ => some "7") 16 (fun i => some (toString i)) 3 = some "7" ∧
    loadIntSlots (fun _ => some "7") 16 (fun i => some (toString i)) 9 = some "9" :=
  ⟨⟨by decide, by decide⟩,
   (settings_skip_command_slot (fun i => some (toString i)) (fun _ => none) 3
      (by decide) "3" "3").1 (by decide) rfl,
   (settings_skip_command_slot (fun i => some (toString i)) (fun _ => none) 3
      (by decide) "3" "3").2.1,
   (settings_skip_command_slot (fun i => some (toString i)) (fun _ => some "7") 3
      (by decide) "7" "3").2.2.1 (by decide) rfl rfl,
   (settings_skip_command_slot (fun i => some (toString i)) (fun _ => some "7") 3
      (by decide) "7" "3").2.2.2⟩

/-- C1: after the engine is Pending on a one-shot command id and an
acknowledgment for that id (a status snapshot echoing it) is handled, the
command register (currentCommand and the int-9 mirror) is reset to 0, the
active state is cleared from every command button, all command buttons and
both power switches are re-enabled (the switches because the session is
connected), and the waiting flag becomes false: the engine returns to
Idle. -/
theorem oneshot_ack_resets_engine (cfg : StickyConfig) (s : PanelState) (k j : Nat)
    (hConn : s.isConnected = true) (hPend : s.waitingForAck = true)
    (hCmd : s.currentCommand = k) (hOne : cfg.sticky k = false) :
    (handleStatusEcho cfg k s).currentCommand = 0 ∧
    (handleStatusEcho cfg k s).int9 = 0 ∧
    (handleStatusEcho cfg k s).btnActive j = false ∧
    (handleStatusEcho cfg k s).btnDisabled j = false ∧
    (handleStatusEcho cfg k s).driverDisabled = false ∧
    (handleStatusEcho cfg k s).servoDisabled = false ∧
    (handleStatusEcho cfg k s).waitingForAck = false := by
  have hguard : s.waitingForAck = true ∧ k = s.currentCommand := ⟨hPend, hCmd.symm⟩
  have hecho : handleStatusEcho cfg k s = handleAcknowledgment s := by
    rw [handleStatusEcho, if_pos hguard, hCmd, hOne]
    simp
  rw [hecho]
  simp [handleAcknowledgment, clearCommand, setCommand, setWaitingForAck,
    psEnableAll, enableAllButtons, clearActiveButtons, hConn]

theorem oneshot_ack_resets_engine_witness :
    (handleStatusEcho ⟨fun _ => false, fun _ => false, false, false⟩ 5
      { isConnected := true, currentCommand := 5, int9 := 5, waitingForAck := true,
        btnDisabled := fun j => j ≠ 2, btnActive := fun j => j = 2,
        driverDisabled := true, servoDisabled := true,
        driverChecked := false, servoChecked := false }).currentCommand = 0 ∧
    (handleStatusEcho ⟨fun _ => false, fun _ => false, false, false⟩ 5
      { isConnected := true, currentCommand := 5, int9 := 5, waitingForAck := true,
        btnDisabled := fun j => j ≠ 2, btnActive := fun j => j = 2,
        driverDisabled := true, servoDisabled := true,
        driverChecked := false, servoChecked := false }).btnDisabled 7 = false ∧
    (handleStatusEcho ⟨fun _ => false, fun _ => false, false, false⟩ 5
      { isConnected := true, currentCommand := 5, int9 := 5, waitingForAck := true,
        btnDisabled := fun j => j ≠ 2, btnActive := fun j => j = 2,
        driverDisabled := true, servoDisabled := true,
        driverChecked := false, servoChecked := false }).waitingForAck = false :=
  ⟨(oneshot_ack_resets_engine ⟨fun _ => false, fun _ => false, false, false⟩ _ 5 7
      rfl rfl rfl rfl).1,
   (oneshot_ack_resets_engine ⟨fun _ => false, fun _ => false, false, false⟩ _ 5 7
      rfl rfl rfl rfl).2.2.2.1,
   (oneshot_ack_resets_engine ⟨fun _ => false, fun _ => false, false, false⟩ _ 5 7
      rfl rfl rfl rfl).2.2.2.2.2.2⟩

/-- C3: when a matching echo resolves a sticky pending command k, the
command register keeps the value k (it is not reset to 0) and the command's
active state remains true; among the previously disabled controls only the
ones configured safe for concurrent use are re-enabled; further status
snapshots produce no transition, and the value k is only replaced when a
later explicit command is issued. -/
theorem sticky_ack_keeps_command (cfg : StickyConfig) (s : PanelState)
    (k b e b2 : Nat) (cmdOf : Nat → Nat)
    (hPend : s.waitingForAck = true) (hCmd : s.currentCommand = k)
    (hInt : s.int9 = k) (hSticky : cfg.sticky k = true) (hActive : s.btnActive b = true) :
    (handleStatusEcho cfg k s).currentCommand = k ∧
    (handleStatusEcho cfg k s).int9 = k ∧
    (handleStatusEcho cfg k s).btnActive b = true ∧
    (handleStatusEcho cfg k s).waitingForAck = false ∧
    (∀ j, s.btnDisabled j = true → (handleStatusEcho cfg k s).btnDisabled j = false →
      cfg.safeBtn j = true) ∧
    (s.driverDisabled = true → (handleStatusEcho cfg k s).driverDisabled = false →
      cfg.safeDriver = true) ∧
    (s.servoDisabled = true → (handleStatusEcho cfg k s).servoDisabled = false →
      cfg.safeServo = true) ∧
    handleStatusEcho cfg e (handleStatusEcho cfg k s) = handleStatusEcho cfg k s ∧
    (s.isConnected = true →
      (handleCommandClick cmdOf b2 (handleStatusEcho cfg k s)).currentCommand = cmdOf b2) := by
  have hguard : s.waitingForAck = true ∧ k = s.currentCommand := ⟨hPend, hCmd.symm⟩
  have hecho : handleStatusEcho cfg k s = resolveSticky cfg s := by
    rw [handleStatusEcho, if_pos hguard, hCmd, hSticky]
    simp
  rw [hecho]
  refine ⟨by simp [resolveSticky, hCmd], by simp [resolveSticky, hInt],
    by simp [resolveSticky, hActive], by simp [resolveSticky], ?_, ?_, ?_, ?_, ?_⟩
  · intro j hdis hen
    by_cases hsafe : cfg.safeBtn j = true
    · exact hsafe
    · exfalso
      simp only [resolveSticky] at hen
      rw [if_neg (by simpa using hsafe), hdis] at hen
      exact absurd hen (by simp)
  · intro hdis hen
    by_cases hsafe : cfg.safeDriver = true
    · exact hsafe
    · exfalso
      simp only [resolveSticky] at hen
      rw [if_neg (by simpa using hsafe), hdis] at hen
      exact absurd hen (by simp)
  · intro hdis hen
    by_cases hsafe : cfg.safeServo = true
    · exact hsafe
    · exfalso
      simp only [resolveSticky] at hen
      rw [if_neg (by simpa using hsafe), hdis] at hen
      exact absurd hen (by simp)
  · rw [handleStatusEcho, if_neg]
    intro hc
    have : (resolveSticky cfg s).waitingForAck = false := by simp [resolveSticky]
    rw [hc.1] at this
    exact absurd this (by simp)
  · intro hc
    have hc2 : (resolveSticky cfg s).isConnected = true := by
      simpa [resolveSticky] using hc
    rw [handleCommandClick, if_pos hc2]
    simp [setCommand]

theorem sticky_ack_keeps_command_witness :
    (handleStatusEcho ⟨fun _ => true, fun _ => false, false, false⟩ 12
      { isConnected := true, currentCommand := 12, int9 := 12, waitingForAck := true,
        btnDisabled := fun j => j ≠ 4, btnActive := fun j => j = 4,
        driverDisabled := true, servoDisabled := true,
        driverChecked := false, servoChecked := false }).currentCommand = 12 ∧
    (handleStatusEcho ⟨fun _ => true, fun _ => false, false, false⟩ 12
      { isConnected := true, currentCommand := 12, int9 := 12, waitingForAck := true,
        btnDisabled := fun j => j ≠ 4, btnActive := fun j => j = 4,
        driverDisabled := true, servoDisabled := true,
        driverChecked := false, servoChecked := false }).btnActive 4 = true ∧
    (handleStatusEcho ⟨fun _ => true, fun _ => false, false, false⟩ 12
      { isConnected := true, currentCommand := 12, int9 := 12, waitingForAck := true,
        btnDisabled := fun j => j ≠ 4, btnActive := fun j => j = 4,
        driverDisabled := true, servoDisabled := true,
        driverChecked := false, servoChecked := false }).waitingForAck = false :=
  ⟨(sticky_ack_keeps_command ⟨fun _ => true, fun _ => false, false, false⟩ _ 12 4 0 0
      (fun j => j) rfl rfl rfl rfl (by decide)).1,
   (sticky_ack_keeps_command ⟨fun _ => true, fun _ => false, false, false⟩ _ 12 4 0 0
      (fun j => j) rfl rfl rfl rfl (by decide)).2.2.1,
   (sticky_ack_keeps_command ⟨fun _ => true, fun _ => false, false, false⟩ _ 12 4 0 0
      (fun j => j) rfl rfl rfl rfl (by decide)).2.2.2.1⟩

/-- C4: issuing two command requests in sequence with no acknowledgment in
between leaves the engine Pending on the second id only: the command
register holds the second id, the waiting flag is set, and a later echo
equal to the first id (when different from the second) produces no
transition. -/
theorem supersede_pending_command (cfg : StickyConfig) (cmdOf : Nat → Nat)
    (b1 b2 : Nat) (s : PanelState) (hConn : s.isConnected = true) :
    (handleCommandClick cmdOf b2 (handleCommandClick cmdOf b1 s)).currentCommand = cmdOf b2 ∧
    (handleCommandClick cmdOf b2 (handleCommandClick cmdOf b1 s)).int9 = cmdOf b2 ∧
    (handleCommandClick cmdOf b2 (handleCommandClick cmdOf b1 s)).waitingForAck = true ∧
    (cmdOf b1 ≠ cmdOf b2 →
      handleStatusEcho cfg (cmdOf b1)
          (handleCommandClick cmdOf b2 (handleCommandClick cmdOf b1 s)) =
        handleCommandClick cmdOf b2 (handleCommandClick cmdOf b1 s)) := by
  have hConn1 : (handleCommandClick cmdOf b1 s).isConnected = true := by
    rw [handleCommandClick, if_pos hConn]
    simp [setCommand, setWaitingForAck, psDisableAll, disableAllButtonsExcept,
      setActiveButton, hConn]
  have hstep : ∀ t : PanelState, t.isConnected = true →
      (handleCommandClick cmdOf b2 t).currentCommand = cmdOf b2 ∧
      (handleCommandClick cmdOf b2 t).int9 = cmdOf b2 ∧
      (handleCommandClick cmdOf b2 t).waitingForAck = true := by
    intro t ht
    rw [handleCommandClick, if_pos ht]
    simp [setCommand, setWaitingForAck, psDisableAll, disableAllButtonsExcept,
      setActiveButton]
  obtain ⟨h1, h2, h3⟩ := hstep (handleCommandClick cmdOf b1 s) hConn1
  refine ⟨h1, h2, h3, ?_⟩
  intro hne
  rw [handleStatusEcho, if_neg]
  intro hc
  rw [h1] at hc
  exact hne hc.2

theorem supersede_pending_command_witness :
    ((7 : Nat) ≠ 8 ∧
      (handleCommandClick (fun b => b) 8
        (handleCommandClick (fun b => b) 7
          { isConnected := true, currentCommand := 0, int9 := 0, waitingForAck := false,
            btnDisabled := fun _ => false, btnActive := fun _ => false,
            driverDisabled := false, servoDisabled := false,
            driverChecked := false, servoChecked := false })).currentCommand = 8) ∧
    handleStatusEcho ⟨fun _ => false, fun _ => false, false, false⟩ 7
        (handleCommandClick (fun b => b) 8
          (handleCommandClick (fun b => b) 7
            { isConnected := true, currentCommand := 0, int9 := 0, waitingForAck := false,
              btnDisabled := fun _ => false, btnActive := fun _ => false,
              driverDisabled := false, servoDisabled := false,
              driverChecked := false, servoChecked := false })) =
      handleCommandClick (fun b => b) 8
        (handleCommandClick (fun b => b) 7
          { isConnected := true, currentCommand := 0, int9 := 0, waitingForAck := false,
            btnDisabled := fun _ => false, btnActive := fun _ => false,
            driverDisabled := false, servoDisabled := false,
            driverChecked := false, servoChecked := false }) :=
  ⟨⟨by decide,
    (supersede_pending_command ⟨fun _ => false, fun _ => false, false, false⟩
      (fun b => b) 7 8 _ rfl).1⟩,
   (supersede_pending_command ⟨fun _ => false, fun _ => false, false, false⟩
      (fun b => b) 7 8 _ rfl).2.2.2 (by decide)⟩

/-- C5 counterexample: a power-switch toggle issues a command request while
connected (the engine becomes Pending with the command id in the register),
yet the toggled switch itself is left enabled — `handleSwitchChange`
disables only the other switch, so it is false that both power/servo
switches are disabled whenever a request is issued. -/
theorem switch_issue_leaves_toggled_switch_enabled :
    (toggleSwitch (fun _ => 5) (fun _ => 6) Switch.driver
      { isConnected := true, currentCommand := 0, int9 := 0, waitingForAck := false,
        btnDisabled := fun _ => false, btnActive := fun _ => false,
        driverDisabled := false, servoDisabled := false,
        driverChecked := false, servoChecked := false }).waitingForAck = true ∧
    (toggleSwitch (fun _ => 5) (fun _ => 6) Switch.driver
      { isConnected := true, currentCommand := 0, int9 := 0, waitingForAck := false,
        btnDisabled := fun _ => false, btnActive := fun _ => false,
        driverDisabled := false, servoDisabled := false,
        driverChecked := false, servoChecked := false }).currentCommand = 5 ∧
    (toggleSwitch (fun _ => 5) (fun _ => 6) Switch.driver
      { isConnected := true, currentCommand := 0, int9 := 0, waitingForAck := false,
        btnDisabled := fun _ => false, btnActive := fun _ => false,
        driverDisabled := false, servoDisabled := false,
        driverChecked := false, servoChecked := false }).driverDisabled = false := by
  refine ⟨rfl, rfl, rfl⟩

/-- C5 amended: whenever a command request is issued while connected, the
request's id is written into the command register and the conflicting
controls are disabled and stay disabled until resolution — for a button
click these are every other command button and both power switches; for a
power-switch toggle these are all command buttons and the other switch,
while the toggled switch itself keeps its previous (enabled) state.  No
non-resolving step (a further issue, or a status snapshot whose echo does
not match) re-enables a disabled control. -/
theorem issue_disables_conflicting_controls (cfg : StickyConfig)
    (cmdOf : Nat → Nat) (cmdOn cmdOff : Switch → Nat) (b : Nat) (sw : Switch)
    (s v : PanelState) (j e : Nat) (hConn : s.isConnected = true) :
    ((handleCommandClick cmdOf b s).currentCommand = cmdOf b ∧
     (handleCommandClick cmdOf b s).int9 = cmdOf b ∧
     (handleCommandClick cmdOf b s).waitingForAck = true ∧
     (j ≠ b → (handleCommandClick cmdOf b s).btnDisabled j = true) ∧
     (handleCommandClick cmdOf b s).driverDisabled = true ∧
     (handleCommandClick cmdOf b s).servoDisabled = true) ∧
    ((toggleSwitch cmdOn cmdOff sw s).currentCommand =
        (if !(getChecked sw s) then cmdOn sw else cmdOff sw) ∧
     (toggleSwitch cmdOn cmdOff sw s).waitingForAck = true ∧
     (toggleSwitch cmdOn cmdOff sw s).btnDisabled j = true ∧
     getSwitchDisabled sw.other (toggleSwitch cmdOn cmdOff sw s) = true ∧
     getSwitchDisabled sw (toggleSwitch cmdOn cmdOff sw s) = getSwitchDisabled sw s) ∧
    ((v.btnDisabled j = true → (handleCommandClick cmdOf b v).btnDisabled j = true) ∧
     (v.driverDisabled = true → (handleCommandClick cmdOf b v).driverDisabled = true) ∧
     (v.servoDisabled = true → (handleCommandClick cmdOf b v).servoDisabled = true) ∧
     (v.btnDisabled j = true → (toggleSwitch cmdOn cmdOff sw v).btnDisabled j = true) ∧
     (v.driverDisabled = true → (toggleSwitch cmdOn cmdOff sw v).driverDisabled = true) ∧
     (v.servoDisabled = true → (toggleSwitch cmdOn cmdOff sw v).servoDisabled = true) ∧
     (e ≠ v.currentCommand → handleStatusEcho cfg e v = v)) := by
  refine ⟨?_, ?_, ?_⟩
  · rw [handleCommandClick, if_pos hConn]
    refine ⟨rfl, rfl, rfl, ?_, rfl, rfl⟩
    intro hj
    simp [setCommand, setWaitingForAck, psDisableAll, disableAllButtonsExcept,
      setActiveButton, hj]
  · have hConn2 : (setChecked sw (!(getChecked sw s)) s).isConnected = true := by
      cases sw <;> simpa [setChecked] using hConn
    rw [toggleSwitch, handleSwitchChange, if_pos hConn2]
    cases sw <;>
      simp [setCommand, setWaitingForAck, setSwitchDisabled, disableAllButtons,
        setChecked, getChecked, getSwitchDisabled, Switch.other]
  · refine ⟨?_, ?_, ?_, ?_, ?_, ?_, ?_⟩
    · intro hd
      rw [handleCommandClick]
      by_cases hc : v.isConnected = true
      · rw [if_pos hc]
        simp only [setCommand, setWaitingForAck, psDisableAll, disableAllButtonsExcept,
          setActiveButton]
        by_cases hjb : j = b
        · subst hjb
          simpa using hd
        · simp [hjb]
      · rw [if_neg hc]
        exact hd
    · intro hd
      rw [handleCommandClick]
      by_cases hc : v.isConnected = true
      · rw [if_pos hc]
        rfl
      · rw [if_neg hc]
        exact hd
    · intro hd
      rw [handleCommandClick]
      by_cases hc : v.isConnected = true
      · rw [if_pos hc]
        rfl
      · rw [if_neg hc]
        exact hd
    · intro hd
      rw [toggleSwitch, handleSwitchChange]
      by_cases hc : (setChecked sw (!(getChecked sw v)) v).isConnected = true
      · rw [if_pos hc]
        cases sw <;>
          simp [setCommand, setWaitingForAck, setSwitchDisabled, disableAllButtons,
            setChecked, Switch.other]
      · rw [if_neg hc]
        cases sw <;> simpa [setChecked] using hd
    · intro hd
      rw [toggleSwitch, handleSwitchChange]
      by_cases hc : (setChecked sw (!(getChecked sw v)) v).isConnected = true
      · rw [if_pos hc]
        cases sw <;>
          simp [setCommand, setWaitingForAck, setSwitchDisabled, disableAllButtons,
            setChecked, Switch.other, hd]
      · rw [if_neg hc]
        cases sw <;> simpa [setChecked] using hd
    · intro hd
      rw [toggleSwitch, handleSwitchChange]
      by_cases hc : (setChecked sw (!(getChecked sw v)) v).isConnected = true
      · rw [if_pos hc]
        cases sw <;>
          simp [setCommand, setWaitingForAck, setSwitchDisabled, disableAllButtons,
            setChecked, Switch.other, hd]
      · rw [if_neg hc]
        cases sw <;> simpa [setChecked] using hd
    · intro hne
      rw [handleStatusEcho, if_neg]
      intro hc
      exact hne hc.2

theorem issue_disables_conflicting_controls_witness :
    (handleCommandClick (fun x => x) 3
      { isConnected := true, currentCommand := 0, int9 := 0, waitingForAck := false,
        btnDisabled := fun _ => false, btnActive := fun _ => false,
        driverDisabled := false, servoDisabled := false,
        driverChecked := false, servoChecked := false }).currentCommand = 3 ∧
    (handleCommandClick (fun x => x) 3
      { isConnected := true, currentCommand := 0, int9 := 0, waitingForAck := false,
        btnDisabled := fun _ => false, btnActive := fun _ => false,
        driverDisabled := false, servoDisabled := false,
        driverChecked := false, servoChecked := false }).btnDisabled 2 = true ∧
    (toggleSwitch (fun _ => 5) (fun _ => 6) Switch.servo
      { isConnected := true, currentCommand := 0, int9 := 0, waitingForAck := false,
        btnDisabled := fun _ => false, btnActive := fun _ => false,
        driverDisabled := false, servoDisabled := false,
        driverChecked := false, servoChecked := false }).driverDisabled = true :=
  ⟨(issue_disables_conflicting_controls ⟨fun _ => false, fun _ => false, false, false⟩
      (fun x => x) (fun _ => 5) (fun _ => 6) 3 Switch.servo
      { isConnected := true, currentCommand := 0, int9 := 0, waitingForAck := false,
        btnDisabled := fun _ => false, btnActive := fun _ => false,
        driverDisabled := false, servoDisabled := false,
        driverChecked := false, servoChecked := false }
      { isConnected := true, currentCommand := 0, int9 := 0, waitingForAck := false,
        btnDisabled := fun _ => false, btnActive := fun _ => false,
        driverDisabled := false, servoDisabled := false,
        driverChecked := false, servoChecked := false } 2 0 rfl).1.1,
   (issue_disables_conflicting_controls ⟨fun _ => false, fun _ => false, false, false⟩
      (fun x => x) (fun _ => 5) (fun _ => 6) 3 Switch.servo
      { isConnected := true, currentCommand := 0, int9 := 0, waitingForAck := false,
        btnDisabled := fun _ => false, btnActive := fun _ => false,
        driverDisabled := false, servoDisabled := false,
        driverChecked := false, servoChecked := false }
      { isConnected := true, currentCommand := 0, int9 := 0, waitingForAck := false,
        btnDisabled := fun _ => false, btnActive := fun _ => false,
        driverDisabled := false, servoDisabled := false,
        driverChecked := false, servoChecked := false } 2 0 rfl).1.2.2.2.1 (by decide),
   (issue_disables_conflicting_controls ⟨fun _ => false, fun _ => false, false, false⟩
      (fun x => x) (fun _ => 5) (fun _ => 6) 3 Switch.servo
      { isConnected := true, currentCommand := 0, int9 := 0, waitingForAck := false,
        btnDisabled := fun _ => false, btnActive := fun _ => false,
        driverDisabled := false, servoDisabled := false,
        driverChecked := false, servoChecked := false }
      { isConnected := true, currentCommand := 0, int9 := 0, waitingForAck := false,
        btnDisabled := fun _ => false, btnActive := fun _ => false,
        driverDisabled := false, servoDisabled := false,
        driverChecked := false, servoChecked := false } 2 0 rfl).2.1.2.2.2.1⟩

/-- C9: if not connected, issuing a command is a no-op on protocol state: a
command-button click leaves the whole state unchanged, and a power-switch
toggle leaves currentCommand, the int-9 mirror, the waiting flag, every
button's disabled/active state and both switches' disabled state unchanged,
while the toggled switch's checked position is reverted to its previous
value. -/
theorem disconnected_issue_is_noop (cmdOf : Nat → Nat) (cmdOn cmdOff : Switch → Nat)
    (b : Nat) (sw : Switch) (s : PanelState) (j : Nat)
    (hDis : s.isConnected = false) :
    handleCommandClick cmdOf b s = s ∧
    (toggleSwitch cmdOn cmdOff sw s).currentCommand = s.currentCommand ∧
    (toggleSwitch cmdOn cmdOff sw s).int9 = s.int9 ∧
    (toggleSwitch cmdOn cmdOff sw s).waitingForAck = s.waitingForAck ∧
    (toggleSwitch cmdOn cmdOff sw s).btnDisabled j = s.btnDisabled j ∧
    (toggleSwitch cmdOn cmdOff sw s).btnActive j = s.btnActive j ∧
    (toggleSwitch cmdOn cmdOff sw s).driverDisabled = s.driverDisabled ∧
    (toggleSwitch cmdOn cmdOff sw s).servoDisabled = s.servoDisabled ∧
    getChecked sw (toggleSwitch cmdOn cmdOff sw s) = getChecked sw s := by
  have hclick : handleCommandClick cmdOf b s = s := by
    rw [handleCommandClick, if_neg (by rw [hDis]; exact Bool.false_ne_true)]
  have hDis2 : ¬((setChecked sw (!(getChecked sw s)) s).isConnected = true) := by
    cases sw <;> simp [setChecked, hDis]
  have htog : toggleSwitch cmdOn cmdOff sw s =
      setChecked sw (!(!(getChecked sw s)))
        (setChecked sw (!(getChecked sw s)) s) := by
    rw [toggleSwitch, handleSwitchChange, if_neg hDis2]
    cases sw <;> simp [setChecked, getChecked]
  rw [hclick, htog]
  cases sw <;> simp [setChecked, getChecked]

theorem disconnected_issue_is_noop_witness :
    (({ isConnected := false, currentCommand := 4, int9 := 4, waitingForAck := false,
        btnDisabled := fun _ => false, btnActive := fun _ => false,
        driverDisabled := true, servoDisabled := true,
        driverChecked := true, servoChecked := false } : PanelState).isConnected = false) ∧
    handleCommandClick (fun x => x) 3
      { isConnected := false, currentCommand := 4, int9 := 4, waitingForAck := false,
        btnDisabled := fun _ => false, btnActive := fun _ => false,
        driverDisabled := true, servoDisabled := true,
        driverChecked := true, servoChecked := false } =
      { isConnected := false, currentCommand := 4, int9 := 4, waitingForAck := false,
        btnDisabled := fun _ => false, btnActive := fun _ => false,
        driverDisabled := true, servoDisabled := true,
        driverChecked := true, servoChecked := false } ∧
    getChecked Switch.driver
      (toggleSwitch (fun _ => 5) (fun _ => 6) Switch.driver
        { isConnected := false, currentCommand := 4, int9 := 4, waitingForAck := false,
          btnDisabled := fun _ => false, btnActive := fun _ => false,
          driverDisabled := true, servoDisabled := true,
          driverChecked := true, servoChecked := false }) = true :=
  ⟨rfl,
   (disconnected_issue_is_noop (fun x => x) (fun _ => 5) (fun _ => 6) 3 Switch.driver
      { isConnected := false, currentCommand := 4, int9 := 4, waitingForAck := false,
        btnDisabled := fun _ => false, btnActive := fun _ => false,
        driverDisabled := true, servoDisabled := true,
        driverChecked := true, servoChecked := false } 0 rfl).1,
   (disconnected_issue_is_noop (fun x => x) (fun _ => 5) (fun _ => 6) 3 Switch.driver
      { isConnected := false, currentCommand := 4, int9 := 4, waitingForAck := false,
        btnDisabled := fun _ => false, btnActive := fun _ => false,
        driverDisabled := true, servoDisabled := true,
        driverChecked := true, servoChecked := false } 0 rfl).2.2.2.2.2.2.2.2⟩

theorem psStep_safe {a b : PanelState} (h : PSStep a b) (ha : SwitchesSafe a) :
    SwitchesSafe b := by
  cases h with
  | enableAll =>
    intro hdis
    by_cases hc : a.isConnected = true
    · exfalso
      rw [psEnableAll, if_pos hc] at hdis
      simp at hdis
      rw [hdis] at hc
      exact Bool.false_ne_true hc
    · have hf : a.isConnected = false := by
        cases he : a.isConnected
        · rfl
        · exact absurd he hc
      rw [psEnableAll, if_neg (by rw [hf]; exact Bool.false_ne_true)]
      exact ha hf
  | disableAll =>
    intro _
    exact ⟨rfl, rfl⟩
  | connStatus c =>
    intro hdis
    cases c with
    | false =>
      exact ⟨rfl, rfl⟩
    | true =>
      exfalso
      simp [handleConnectionStatus, psEnableAll, setConnected] at hdis

/-- C10: in every state reachable through the power-switch operations
(enableAll, disableAll, and the connection-status event), the invariant
holds that a disconnected state has both the driver and servo switches
disabled; enableAll re-enables nothing while disconnected, and the
transition to disconnected disables both switches. -/
theorem disconnected_switches_disabled (s t u : PanelState)
    (hs : SwitchesSafe s) (hr : PSReachable s t) :
    SwitchesSafe t ∧
    (u.isConnected = false → psEnableAll u = u) ∧
    (handleConnectionStatus false (setConnected false u)).driverDisabled = true ∧
    (handleConnectionStatus false (setConnected false u)).servoDisabled = true := by
  refine ⟨?_, ?_, rfl, rfl⟩
  · induction hr with
    | refl => exact hs
    | tail hab hstep ih => exact psStep_safe hstep ih
  · intro h
    rw [psEnableAll, if_neg (by rw [h]; exact Bool.false_ne_true)]

theorem disconnected_switches_disabled_witness :
    SwitchesSafe
      { isConnected := false, currentCommand := 0, int9 := 0, waitingForAck := false,
        btnDisabled := fun _ => false, btnActive := fun _ => false,
        driverDisabled := true, servoDisabled := true,
        driverChecked := false, servoChecked := false } ∧
    PSReachable
      { isConnected := false, currentCommand := 0, int9 := 0, waitingForAck := false,
        btnDisabled := fun _ => false, btnActive := fun _ => false,
        driverDisabled := true, servoDisabled := true,
        driverChecked := false, servoChecked := false }
      { isConnected := false, currentCommand := 0, int9 := 0, waitingForAck := false,
        btnDisabled := fun _ => false, btnActive := fun _ => false,
        driverDisabled := true, servoDisabled := true,
        driverChecked := false, servoChecked := false } ∧
    (handleConnectionStatus false
      (setConnected false
        { isConnected := false, currentCommand := 0, int9 := 0, waitingForAck := false,
          btnDisabled := fun _ => false, btnActive := fun _ => false,
          driverDisabled := true, servoDisabled := true,
          driverChecked := false, servoChecked := false })).driverDisabled = true :=
  ⟨by decide, Relation.ReflTransGen.refl,
   (disconnected_switches_disabled
      { isConnected := false, currentCommand := 0, int9 := 0, waitingForAck := false,
        btnDisabled := fun _ => false, btnActive := fun _ => false,
        driverDisabled := true, servoDisabled := true,
        driverChecked := false, servoChecked := false }
      { isConnected := false, currentCommand := 0, int9 := 0, waitingForAck := false,
        btnDisabled := fun _ => false, btnActive := fun _ => false,
        driverDisabled := true, servoDisabled := true,
        driverChecked := false, servoChecked := false }
      { isConnected := false, currentCommand := 0, int9 := 0, waitingForAck := false,
        btnDisabled := fun _ => false, btnActive := fun _ => false,
        driverDisabled := true, servoDisabled := true,
        driverChecked := false, servoChecked := false }
      (by decide) Relation.ReflTransGen.refl).2.2.1⟩

end ControlPanel
